import Mathlib

/-!
Verification of the Tweede Kamer data-fetching script
(`oldScripts/tempCodeRunnerFile.py`).

The script is a fetch–clean–save pipeline over an OData API.  We embed
its three components shallowly:

* `process_voting_data` — the pandas cleaning step, over an explicit
  table model (`Table` = column names plus rows of cells);
* `fetch_paginated_data` — the offset-based pagination loop, with the
  remote server modelled as a script (list) of page responses consumed
  one per request; the result records, besides the concatenated data,
  the ghost trace of requested URLs and whether the loop terminated by
  itself;
* `fetch_coauthoring_data` — the cursor-based pagination loop with its
  `@odata.nextLink` / `$skip` fallback, modelled the same way;
* the date-window fallback of `main` (client-side timestamp filtering).

Library functions of python are abstracted as parameters where their
internals are irrelevant (`urllib.parse.quote` as a `quote : String →
String` argument, `pd.to_datetime` as a `parse : String → Option Int`
argument producing epoch seconds, `none` standing for `NaT`).
-/

set_option maxRecDepth 8000

namespace TK

/-- A cell of a pandas DataFrame as used by the script: either a raw
string or a parsed timestamp (`Option Int` in epoch seconds, `none`
standing for pandas `NaT`, the result of coercing parse errors). -/
inductive Cell where
  | str : String → Cell
  | time : Option Int → Cell
deriving DecidableEq, Repr

/-- A pandas DataFrame: a list of column names and a list of rows. -/
structure Table where
  cols : List String
  rows : List (List Cell)
deriving DecidableEq, Repr

/-- Pandas `df.empty`: true when either axis has length zero. -/
def Table.isEmpty (t : Table) : Bool :=
  t.rows.isEmpty || t.cols.isEmpty

/-- Look up the cell of `row` in column `c`, columns being named by
`cols` (first occurrence, as pandas column lookup on unique columns). -/
def cellAt (cols : List String) (row : List Cell) (c : String) : Cell :=
  row.getD (cols.indexOf c) (Cell.str "")

/-- The two vote kinds kept by the cleaning step
(`df["Soort"].isin(["Voor", "Tegen"])`). -/
def voteKinds : List Cell := [Cell.str "Voor", Cell.str "Tegen"]

/-- The mask `df["Soort"].isin(["Voor", "Tegen"])` evaluated on one row. -/
def keepRow (cols : List String) (row : List Cell) : Bool :=
  cellAt cols row "Soort" ∈ voteKinds

/-- Line 85–86 of the script: filter to Voor/Tegen rows when the
`Soort` column is present, otherwise leave the frame unchanged. -/
def soortFilter (t : Table) : Table :=
  if "Soort" ∈ t.cols then
    ⟨t.cols, t.rows.filter (fun r => keepRow t.cols r)⟩
  else t

/-- The four essential columns of line 89. -/
def essentialCols : List String :=
  ["Besluit_Id", "ActorFractie", "Soort", "GewijzigdOp"]

/-- Line 90: `[c for c in cols if c in df.columns]`. -/
def availableCols (cols : List String) : List String :=
  essentialCols.filter (fun c => c ∈ cols)

/-- Projection of one row onto the columns `avail` (`df[available_cols]`). -/
def projectRow (cols : List String) (avail : List String) (row : List Cell) :
    List Cell :=
  avail.map (fun c => cellAt cols row c)

/-- Pandas `drop_duplicates()`: keep the first occurrence of every row. -/
def dropDupRows : List (List Cell) → List (List Cell)
  | [] => []
  | r :: rs => r :: dropDupRows (rs.filter (fun x => x ≠ r))
termination_by l => l.length
decreasing_by
  simp only [List.length_cons]
  exact Nat.lt_succ_of_le (List.length_filter_le _ _)

/-- Lines 79–95 of the script: clean voting data.  Keep only
Voor/Tegen rows (when a `Soort` column exists), project onto the
essential columns that are present, and drop exact duplicate rows;
an empty frame is returned unchanged. -/
def process_voting_data (df : Table) : Table :=
  if df.isEmpty then df
  else
    let df1 := soortFilter df
    let avail := availableCols df1.cols
    if avail.isEmpty then df1
    else ⟨avail, dropDupRows (df1.rows.map (fun r => projectRow df1.cols avail r))⟩

/-! ### Date-window fallback of `main` (lines 226–238) -/

/-- One cell under `pd.to_datetime` with coerced errors and UTC:
a string is parsed (`none` = unparsable = `NaT`), an already-converted
timestamp is left as is.  `parse` abstracts the ISO-8601 parser. -/
def toDatetimeCell (parse : String → Option Int) : Cell → Cell
  | .str s => .time (parse s)
  | .time v => .time v

/-- Line 232: assignment of `pd.to_datetime(processed["GewijzigdOp"], ...)`:
replace the `GewijzigdOp` column by its parsed version. -/
def convertGewijzigdOp (parse : String → Option Int) (t : Table) : Table :=
  let i := t.cols.indexOf "GewijzigdOp"
  ⟨t.cols, t.rows.map (fun r => r.set i (toDatetimeCell parse (r.getD i (Cell.str ""))))⟩

/-- The mask `processed["GewijzigdOp"] >= lo` on one cell; comparisons
against `NaT` (and against a non-timestamp cell) are false, as in pandas. -/
def cellGeTime (c : Cell) (lo : Int) : Bool :=
  match c with
  | .time (some v) => lo ≤ v
  | _ => false

/-- The mask `processed["GewijzigdOp"] <= hi` on one cell. -/
def cellLeTime (c : Cell) (hi : Int) : Bool :=
  match c with
  | .time (some v) => v ≤ hi
  | _ => false

/-- Lines 235–238: keep the rows whose `GewijzigdOp` timestamp is
within `[lo, hi]`, both bounds inclusive. -/
def filterWindow (lo hi : Int) (t : Table) : Table :=
  ⟨t.cols, t.rows.filter (fun r =>
    cellGeTime (cellAt t.cols r "GewijzigdOp") lo &&
    cellLeTime (cellAt t.cols r "GewijzigdOp") hi)⟩

/-- The UTC timestamp `pd.Timestamp("2022-11-22")` in epoch seconds. -/
def preStartDt : Int := 1669075200

/-- The UTC timestamp `pd.Timestamp("2023-11-21 23:59:59")` in epoch seconds. -/
def preEndDt : Int := 1700611199

/-- Lines 226–238 of `main`: the fallback taken when the server-side
date-filtered fetch came back empty (`emptyPre`).  Refetch everything
(`allData`), clean it, parse the `GewijzigdOp` column and filter
client-side to the window `[lo, hi]`; when the refetch is also empty,
or the cleaned frame has no `GewijzigdOp` column, `pre_data` keeps its
previous (empty) value. -/
def dateFallback (parse : String → Option Int) (lo hi : Int)
    (emptyPre allData : Table) : Table :=
  if allData.isEmpty then emptyPre
  else
    let processed := process_voting_data allData
    if "GewijzigdOp" ∈ processed.cols then
      filterWindow lo hi (convertGewijzigdOp parse processed)
    else emptyPre

/-! ### Offset-based pagination (`fetch_paginated_data`, lines 19–76)

The remote server is modelled by a script: the list of responses it
returns to the successive requests of the loop.  A response either
raises (`err`, covering a failed request, a non-2xx status and a JSON
error), lacks the `value` key, or carries a page of records. -/

/-- Line 17: `BATCH_SIZE = 250`. -/
def BATCH_SIZE : Nat := 250

/-- Line 16: the `BASE_URL` of the script. -/
def BASE_URL : String := "https://gegevensmagazijn.tweedekamer.nl/OData/v4/2.0"

/-- One response of the server to a page request. -/
inductive PResp (α : Type) where
  | err : PResp α
  | noValue : PResp α
  | ok : List α → PResp α
deriving DecidableEq, Repr

/-- The URL built at lines 29–32 for a given `$skip`; `quote` abstracts
`urllib.parse.quote`. -/
def pageUrl (quote : String → String) (endpoint : String)
    (filter_query : Option String) (skip : Nat) : String :=
  match filter_query with
  | some fq =>
      BASE_URL ++ "/" ++ endpoint ++ "?$filter=" ++ quote fq ++
        s!"&$top={BATCH_SIZE}&$skip={skip}"
  | none =>
      BASE_URL ++ "/" ++ endpoint ++ s!"?$top={BATCH_SIZE}&$skip={skip}"

/-- Result of a pagination loop: the accumulated records, the ghost
trace of requested URLs, and whether the loop broke out by itself
(`done = false` means the response script ran out while the loop would
have kept requesting). -/
structure FetchResult (α : Type) where
  records : List α
  reqs : List String
  done : Bool
deriving Repr

/-- The `while True` loop of `fetch_paginated_data`: request the page at
`skip`; an exception or a missing `value` key breaks the loop; an empty
page breaks it; a short page (fewer than `BATCH_SIZE` records) is kept
and breaks it; a full page is kept and the loop continues at
`skip + BATCH_SIZE`. -/
def fetch_paginated_go (quote : String → String) (endpoint : String)
    (filter_query : Option String) :
    List (PResp α) → Nat → FetchResult α
  | [], _ => ⟨[], [], false⟩
  | .err :: _, skip => ⟨[], [pageUrl quote endpoint filter_query skip], true⟩
  | .noValue :: _, skip => ⟨[], [pageUrl quote endpoint filter_query skip], true⟩
  | .ok recs :: rest, skip =>
    if recs.length = 0 then ⟨[], [pageUrl quote endpoint filter_query skip], true⟩
    else if recs.length < BATCH_SIZE then
      ⟨recs, [pageUrl quote endpoint filter_query skip], true⟩
    else
      let r := fetch_paginated_go quote endpoint filter_query rest (skip + BATCH_SIZE)
      ⟨recs ++ r.records, pageUrl quote endpoint filter_query skip :: r.reqs, r.done⟩

/-- Lines 19–76: fetch all pages starting at `skip = 0` and concatenate
them (`pd.concat`); an empty accumulator yields an empty frame. -/
def fetch_paginated_data (quote : String → String) (endpoint : String)
    (filter_query : Option String) (script : List (PResp α)) : FetchResult α :=
  fetch_paginated_go quote endpoint filter_query script 0

/-! ### Cursor-based pagination (`fetch_coauthoring_data`, lines 98–203) -/

/-- The `filter_query` of lines 112–117. -/
def coauthFilterQuery (date_from date_to : String) : String :=
  "Verwijderd eq false and Soort eq \x27Motie\x27 and Datum ge " ++ date_from ++
    " and Datum le " ++ date_to

/-- The `expand_query` of line 120. -/
def expandQuery : String :=
  "DocumentActor($filter=Relatie eq \x27Eerste ondertekenaar\x27 or Relatie eq \x27Mede ondertekenaar\x27)"

/-- The `select_query` of line 123. -/
def selectQuery : String := "Id,Datum,Soort,Titel,Onderwerp,DocumentActor"

/-- The `params` dict of lines 126–131, as an association list. -/
def coauthParams (date_from date_to : String) : List (String × String) :=
  [("$filter", coauthFilterQuery date_from date_to),
   ("$expand", expandQuery),
   ("$select", selectQuery),
   ("$top", "250")]

/-- Lines 134–137: percent-encode each value and join with `&`. -/
def buildQueryString (quote : String → String) (params : List (String × String)) :
    String :=
  String.intercalate "&" (params.map (fun kv => kv.1 ++ "=" ++ quote kv.2))

/-- Line 139: the initial URL of the cursor-based fetch. -/
def initialCoauthUrl (quote : String → String) (date_from date_to : String) :
    String :=
  BASE_URL ++ "/Document?" ++ buildQueryString quote (coauthParams date_from date_to)

/-- Lines 183–191: the fallback URL rebuilt from the same parameters
(every key except `$skip`, which the dict never holds) with the new
`$skip` appended. -/
def fallbackUrl (quote : String → String) (params : List (String × String))
    (skip : Nat) : String :=
  let parts := (params.filter (fun kv => kv.1 ≠ "$skip")).map
    (fun kv => kv.1 ++ "=" ++ quote kv.2)
  BASE_URL ++ "/Document?" ++ String.intercalate "&" (parts ++ [s!"$skip={skip}"])

/-- One server response to the cursor-based loop: an exception, or a
JSON payload with its `value` list (`[]` when the key is missing) and
its optional `@odata.nextLink`. -/
inductive CoResp (α : Type) where
  | err : CoResp α
  | ok : List α → Option String → CoResp α
deriving DecidableEq, Repr

/-- Result of the cursor-based loop: accumulated raw items, the ghost
trace of requested URLs, and whether the loop broke out by itself. -/
structure CoResult (α : Type) where
  items : List α
  reqs : List String
  done : Bool
deriving Repr

/-- The `while True` loop of lines 151–200: request `url`; on exception
break, keeping the accumulated items; otherwise extend with the current
`value`; a short page (fewer than 250 records) breaks the loop; else
follow `@odata.nextLink` when present (leaving `skip` untouched), and
otherwise increment `skip` by 250 and rebuild the URL from `params`. -/
def fetch_coauthoring_go (quote : String → String)
    (params : List (String × String)) :
    List (CoResp α) → String → Nat → CoResult α
  | [], _, _ => ⟨[], [], false⟩
  | .err :: _, url, _ => ⟨[], [url], true⟩
  | .ok value nextLink :: rest, url, skip =>
    if value.length < 250 then ⟨value, [url], true⟩
    else
      match nextLink with
      | some l =>
        let r := fetch_coauthoring_go quote params rest l skip
        ⟨value ++ r.items, url :: r.reqs, r.done⟩
      | none =>
        let r := fetch_coauthoring_go quote params rest
          (fallbackUrl quote params (skip + 250)) (skip + 250)
        ⟨value ++ r.items, url :: r.reqs, r.done⟩

/-- Lines 98–203: fetch all motion documents of `[date_from, date_to]`,
starting from the initial URL with `skip = 0`. -/
def fetch_coauthoring_data (quote : String → String)
    (date_from date_to : String) (script : List (CoResp α)) : CoResult α :=
  fetch_coauthoring_go quote (coauthParams date_from date_to) script
    (initialCoauthUrl quote date_from date_to) 0

/-! ### Lemmas about `dropDupRows` -/

theorem dropDupRows_sublist : ∀ l : List (List Cell), List.Sublist (dropDupRows l) l := by
  intro l
  induction l using dropDupRows.induct with
  | case1 => simp [dropDupRows]
  | case2 r rs ih =>
    rw [dropDupRows]
    exact (ih.trans (List.filter_sublist rs)).cons₂ r

theorem mem_dropDupRows {x : List Cell} : ∀ {l : List (List Cell)},
    x ∈ dropDupRows l ↔ x ∈ l := by
  intro l
  induction l using dropDupRows.induct with
  | case1 => simp [dropDupRows]
  | case2 r rs ih =>
    rw [dropDupRows]
    constructor
    · intro h
      rcases List.mem_cons.mp h with h | h
      · exact h ▸ List.mem_cons_self _ _
      · exact List.mem_cons_of_mem _ (List.mem_of_mem_filter (ih.mp h))
    · intro h
      rcases List.mem_cons.mp h with h | h
      · exact h ▸ List.mem_cons_self _ _
      · by_cases hxr : x = r
        · exact hxr ▸ List.mem_cons_self _ _
        · exact List.mem_cons_of_mem _
            (ih.mpr (List.mem_filter.mpr ⟨h, by simpa using hxr⟩))

theorem dropDupRows_nodup : ∀ l : List (List Cell), (dropDupRows l).Nodup := by
  intro l
  induction l using dropDupRows.induct with
  | case1 => simp [dropDupRows]
  | case2 r rs ih =>
    rw [dropDupRows]
    refine List.nodup_cons.mpr ⟨?_, ih⟩
    intro hmem
    have := List.mem_filter.mp (mem_dropDupRows.mp hmem)
    simp at this

theorem dropDupRows_eq_self {l : List (List Cell)} (h : l.Nodup) :
    dropDupRows l = l := by
  induction l using dropDupRows.induct with
  | case1 => simp [dropDupRows]
  | case2 r rs ih =>
    rw [dropDupRows]
    rcases List.nodup_cons.mp h with ⟨hr, hrs⟩
    have hf : rs.filter (fun x => x ≠ r) = rs := by
      apply List.filter_eq_self.mpr
      intro a ha
      simp only [ne_eq, decide_eq_true_eq]
      exact fun hc => hr (hc ▸ ha)
    rw [hf] at ih ⊢
    rw [ih hrs]

theorem dropDupRows_length_le (l : List (List Cell)) :
    (dropDupRows l).length ≤ l.length :=
  (dropDupRows_sublist l).length_le

/-! ### Lemmas about projection and column selection -/

theorem cellAt_projectRow {avail : List String} {c : String} (hc : c ∈ avail)
    (cols : List String) (row : List Cell) :
    cellAt avail (projectRow cols avail row) c = cellAt cols row c := by
  have hlt : avail.indexOf c < avail.length := List.indexOf_lt_length.mpr hc
  show (List.map (fun c => cellAt cols row c) avail).getD (avail.indexOf c)
    (Cell.str "") = _
  rw [List.getD_eq_getElem _ _ (by simpa using hlt), List.getElem_map,
    List.getElem_indexOf hlt]

theorem mem_availableCols {c : String} {cols : List String} :
    c ∈ availableCols cols ↔ c ∈ essentialCols ∧ c ∈ cols := by
  simp [availableCols]

theorem availableCols_nodup (cols : List String) : (availableCols cols).Nodup :=
  List.Nodup.filter _ (by decide)

theorem availableCols_idem (cols : List String) :
    availableCols (availableCols cols) = availableCols cols := by
  unfold availableCols
  apply List.filter_congr
  intro c hc
  simp [mem_availableCols, availableCols, hc]

theorem soortFilter_cols (t : Table) : (soortFilter t).cols = t.cols := by
  unfold soortFilter
  split <;> rfl

theorem soortFilter_rows_sublist (t : Table) :
    List.Sublist (soortFilter t).rows t.rows := by
  unfold soortFilter
  split
  · exact List.filter_sublist t.rows
  · exact List.Sublist.refl _

/-- Applying `projectRow` to an already-projected row is the identity,
provided the target columns have no duplicates. -/
theorem projectRow_projectRow {avail : List String}
    (cols : List String) (row : List Cell) :
    projectRow avail avail (projectRow cols avail row) = projectRow cols avail row := by
  unfold projectRow
  apply List.map_congr_left
  intro c hc
  exact cellAt_projectRow hc cols row

/-! ### Unfolding equations for `process_voting_data` -/

theorem process_voting_data_empty {t : Table} (h : t.isEmpty = true) :
    process_voting_data t = t := by
  unfold process_voting_data
  simp [h]

theorem process_voting_data_noavail {t : Table} (hne : t.isEmpty = false)
    (hav : availableCols t.cols = []) : process_voting_data t = soortFilter t := by
  unfold process_voting_data
  simp only [hne, Bool.false_eq_true, if_false, soortFilter_cols, hav,
    List.isEmpty_nil, if_true]

theorem process_voting_data_eq {t : Table} (hne : t.isEmpty = false)
    (hav : availableCols t.cols ≠ []) :
    process_voting_data t =
      ⟨availableCols t.cols,
       dropDupRows ((soortFilter t).rows.map
         (projectRow t.cols (availableCols t.cols)))⟩ := by
  have hav' : (availableCols t.cols).isEmpty = false := by
    simpa [List.isEmpty_iff] using hav
  unfold process_voting_data
  simp only [hne, Bool.false_eq_true, if_false, soortFilter_cols, hav']

/-! ### Idempotence of the cleaning step -/

/-- C5: cleaning is idempotent — for every vote table `t`,
`process_voting_data (process_voting_data t) = process_voting_data t`. -/
theorem C5_cleaning_idempotent (t : Table) :
    process_voting_data (process_voting_data t) = process_voting_data t := by
  by_cases hemp : t.isEmpty = true
  · rw [process_voting_data_empty hemp, process_voting_data_empty hemp]
  · have hne : t.isEmpty = false := by simpa using hemp
    by_cases hav : availableCols t.cols = []
    · have hS : "Soort" ∉ t.cols := by
        intro hs
        have hs' : "Soort" ∈ availableCols t.cols :=
          mem_availableCols.mpr ⟨by decide, hs⟩
        simp [hav] at hs'
      have hsf : soortFilter t = t := by
        unfold soortFilter
        rw [if_neg hS]
      rw [process_voting_data_noavail hne hav, hsf,
        process_voting_data_noavail hne hav, hsf]
    · set avail := availableCols t.cols with havail
      set R1 := dropDupRows ((soortFilter t).rows.map (projectRow t.cols avail))
        with hR1def
      have hT1 : process_voting_data t = ⟨avail, R1⟩ :=
        process_voting_data_eq hne hav
      have hform : ∀ r ∈ R1, ∃ r0, r0 ∈ (soortFilter t).rows ∧
          r = projectRow t.cols avail r0 := by
        intro r hr
        obtain ⟨r0, hr0, hpr⟩ := List.mem_map.mp (mem_dropDupRows.mp hr)
        exact ⟨r0, hr0, hpr.symm⟩
      rw [hT1]
      by_cases hR1 : R1 = []
      · exact process_voting_data_empty (by simp [Table.isEmpty, hR1])
      · have hne1 : (Table.mk avail R1).isEmpty = false := by
          simp [Table.isEmpty, List.isEmpty_iff, hR1, hav]
      -- the second pass filters nothing: every surviving row already
      -- carries a Voor/Tegen vote in its `Soort` cell (when present)
        have hsf1 : soortFilter ⟨avail, R1⟩ = ⟨avail, R1⟩ := by
          unfold soortFilter
          by_cases hSa : "Soort" ∈ avail
          · rw [if_pos hSa]
            have hfe : R1.filter (fun r => keepRow avail r) = R1 := by
              apply List.filter_eq_self.mpr
              intro r hr
              obtain ⟨r0, hr0, hpr⟩ := hform r hr
              have hSt : "Soort" ∈ t.cols := (mem_availableCols.mp hSa).2
              have hfrows : (soortFilter t).rows =
                  t.rows.filter (fun x => keepRow t.cols x) := by
                unfold soortFilter
                rw [if_pos hSt]
              rw [hfrows] at hr0
              have hk : keepRow t.cols r0 = true := (List.mem_filter.mp hr0).2
              subst hpr
              unfold keepRow at hk ⊢
              rw [cellAt_projectRow hSa]
              exact hk
            exact congrArg (Table.mk avail) hfe
          · rw [if_neg hSa]
        have hav1 : availableCols avail = avail := availableCols_idem t.cols
        have hav1ne : availableCols (Table.mk avail R1).cols ≠ [] := by
          simpa [hav1] using hav
        rw [process_voting_data_eq hne1 hav1ne, hsf1]
        have hmap : R1.map (projectRow avail avail) = R1 :=
          calc R1.map (projectRow avail avail) = R1.map id := by
                apply List.map_congr_left
                intro r hr
                obtain ⟨r0, _, hpr⟩ := hform r hr
                subst hpr
                exact projectRow_projectRow t.cols r0
            _ = R1 := List.map_id R1
        show (⟨availableCols avail,
          dropDupRows (R1.map (projectRow avail (availableCols avail)))⟩ : Table)
          = ⟨avail, R1⟩
        rw [hav1, hmap, dropDupRows_eq_self (hR1def ▸ dropDupRows_nodup _)]

/-! ### Lemmas about the offset-based pagination loop -/

theorem fetch_paginated_go_err (quote : String → String) (endpoint : String)
    (fq : Option String) (rest : List (PResp α)) (skip : Nat) :
    fetch_paginated_go quote endpoint fq (PResp.err :: rest) skip =
      ⟨[], [pageUrl quote endpoint fq skip], true⟩ := by
  simp [fetch_paginated_go]

theorem fetch_paginated_go_short {recs : List α} (h : recs.length < BATCH_SIZE)
    (quote : String → String) (endpoint : String) (fq : Option String)
    (rest : List (PResp α)) (skip : Nat) :
    fetch_paginated_go quote endpoint fq (PResp.ok recs :: rest) skip =
      ⟨recs, [pageUrl quote endpoint fq skip], true⟩ := by
  by_cases h0 : recs.length = 0
  · have h0' : recs = [] := List.length_eq_zero.mp h0
    subst h0'
    simp [fetch_paginated_go]
  · simp [fetch_paginated_go, h0, h]

theorem fetch_paginated_go_full {recs : List α} (h : recs.length = BATCH_SIZE)
    (quote : String → String) (endpoint : String) (fq : Option String)
    (rest : List (PResp α)) (skip : Nat) :
    fetch_paginated_go quote endpoint fq (PResp.ok recs :: rest) skip =
      ⟨recs ++ (fetch_paginated_go quote endpoint fq rest (skip + BATCH_SIZE)).records,
       pageUrl quote endpoint fq skip ::
         (fetch_paginated_go quote endpoint fq rest (skip + BATCH_SIZE)).reqs,
       (fetch_paginated_go quote endpoint fq rest (skip + BATCH_SIZE)).done⟩ := by
  simp [fetch_paginated_go, h, BATCH_SIZE]

theorem flatten_length_const {B : Nat} :
    ∀ L : List (List α), (∀ p ∈ L, p.length = B) → L.flatten.length = B * L.length
  | [], _ => by simp
  | p :: L, h => by
    have hp : p.length = B := h p (List.mem_cons_self _ _)
    have hL := flatten_length_const L (fun q hq => h q (List.mem_cons_of_mem _ hq))
    simp only [List.flatten_cons, List.length_append, hp, hL, List.length_cons]
    ring

theorem fetch_paginated_go_full_run (quote : String → String) (endpoint : String)
    (fq : Option String) (rest : List (PResp α)) :
    ∀ fulls : List (List α), (∀ p ∈ fulls, p.length = BATCH_SIZE) → ∀ skip : Nat,
    fetch_paginated_go quote endpoint fq (fulls.map PResp.ok ++ rest) skip =
      ⟨fulls.flatten ++
         (fetch_paginated_go quote endpoint fq rest (skip + BATCH_SIZE * fulls.length)).records,
       (List.range fulls.length).map
           (fun i => pageUrl quote endpoint fq (skip + BATCH_SIZE * i)) ++
         (fetch_paginated_go quote endpoint fq rest (skip + BATCH_SIZE * fulls.length)).reqs,
       (fetch_paginated_go quote endpoint fq rest (skip + BATCH_SIZE * fulls.length)).done⟩ := by
  intro fulls
  induction fulls with
  | nil => intro _ skip; simp
  | cons p fs ih =>
    intro hf skip
    have hp : p.length = BATCH_SIZE := hf p (List.mem_cons_self _ _)
    have hf' : ∀ q ∈ fs, q.length = BATCH_SIZE :=
      fun q hq => hf q (List.mem_cons_of_mem _ hq)
    have hsk : skip + BATCH_SIZE + BATCH_SIZE * fs.length
        = skip + BATCH_SIZE * (fs.length + 1) := by ring
    simp only [List.map_cons, List.cons_append]
    rw [fetch_paginated_go_full hp, ih hf' (skip + BATCH_SIZE)]
    rw [List.length_cons, ← hsk, List.range_succ_eq_map]
    have hmapeq : (List.range fs.length).map
          (fun i => pageUrl quote endpoint fq (skip + BATCH_SIZE + BATCH_SIZE * i))
        = (List.range fs.length).map
          ((fun i => pageUrl quote endpoint fq (skip + BATCH_SIZE * i)) ∘ Nat.succ) := by
      apply List.map_congr_left
      intro i _
      simp only [Function.comp_apply]
      congr 1
      rw [Nat.succ_eq_add_one]
      ring
    simp only [List.map_cons, List.map_map, List.cons_append, Nat.mul_zero,
      Nat.add_zero, List.flatten_cons, List.append_assoc, hmapeq]

/-! ### Lemmas about the cursor-based pagination loop -/

theorem fetch_coauthoring_go_err (quote : String → String)
    (params : List (String × String)) (rest : List (CoResp α)) (url : String)
    (skip : Nat) :
    fetch_coauthoring_go quote params (CoResp.err :: rest) url skip =
      ⟨[], [url], true⟩ := by
  simp [fetch_coauthoring_go]

theorem fetch_coauthoring_go_link {value : List α} (h : 250 ≤ value.length)
    (quote : String → String) (params : List (String × String)) (l : String)
    (rest : List (CoResp α)) (url : String) (skip : Nat) :
    fetch_coauthoring_go quote params (CoResp.ok value (some l) :: rest) url skip =
      ⟨value ++ (fetch_coauthoring_go quote params rest l skip).items,
       url :: (fetch_coauthoring_go quote params rest l skip).reqs,
       (fetch_coauthoring_go quote params rest l skip).done⟩ := by
  rw [fetch_coauthoring_go]
  rw [if_neg (by omega)]

theorem fetch_coauthoring_go_nolink {value : List α} (h : 250 ≤ value.length)
    (quote : String → String) (params : List (String × String))
    (rest : List (CoResp α)) (url : String) (skip : Nat) :
    fetch_coauthoring_go quote params (CoResp.ok value none :: rest) url skip =
      ⟨value ++ (fetch_coauthoring_go quote params rest
          (fallbackUrl quote params (skip + 250)) (skip + 250)).items,
       url :: (fetch_coauthoring_go quote params rest
          (fallbackUrl quote params (skip + 250)) (skip + 250)).reqs,
       (fetch_coauthoring_go quote params rest
          (fallbackUrl quote params (skip + 250)) (skip + 250)).done⟩ := by
  rw [fetch_coauthoring_go]
  rw [if_neg (by omega)]

theorem fetch_coauthoring_go_reqs_zero (quote : String → String)
    (params : List (String × String)) {rest : List (CoResp α)} (h : rest ≠ [])
    (url : String) (skip : Nat) :
    (fetch_coauthoring_go quote params rest url skip).reqs[0]? = some url := by
  match rest with
  | [] => exact absurd rfl h
  | .err :: rs => rfl
  | .ok v nl :: rs =>
    by_cases hv : v.length < 250
    · cases nl <;> simp [fetch_coauthoring_go, hv]
    · cases nl with
      | some l =>
        rw [fetch_coauthoring_go_link (by omega)]
        simp
      | none =>
        rw [fetch_coauthoring_go_nolink (by omega)]
        simp

/-- An exception after any run of full pages (with or without links)
terminates the loop, keeping exactly the items accumulated so far. -/
theorem fetch_coauthoring_go_err_after (quote : String → String)
    (params : List (String × String)) (rest : List (CoResp α)) :
    ∀ pages : List (List α × Option String), (∀ p ∈ pages, p.1.length = 250) →
    ∀ (url : String) (skip : Nat),
    (fetch_coauthoring_go quote params
        (pages.map (fun p => CoResp.ok p.1 p.2) ++ CoResp.err :: rest) url skip).items
      = (pages.map Prod.fst).flatten ∧
    (fetch_coauthoring_go quote params
        (pages.map (fun p => CoResp.ok p.1 p.2) ++ CoResp.err :: rest) url skip).done
      = true := by
  intro pages
  induction pages with
  | nil =>
    intro _ url skip
    rw [List.map_nil, List.nil_append, fetch_coauthoring_go_err]
    simp
  | cons p ps ih =>
    intro hfull url skip
    have hp : p.1.length = 250 := hfull p (List.mem_cons_self _ _)
    have hf' : ∀ q ∈ ps, q.1.length = 250 :=
      fun q hq => hfull q (List.mem_cons_of_mem _ hq)
    simp only [List.map_cons, List.cons_append, List.flatten_cons]
    cases hnl : p.2 with
    | some l =>
      rw [fetch_coauthoring_go_link (by omega)]
      obtain ⟨ih1, ih2⟩ := ih hf' l skip
      exact ⟨by rw [ih1], ih2⟩
    | none =>
      rw [fetch_coauthoring_go_nolink (by omega)]
      obtain ⟨ih1, ih2⟩ := ih hf' (fallbackUrl quote params (skip + 250)) (skip + 250)
      exact ⟨by rw [ih1], ih2⟩

/-! ### The timestamp-window mask -/

theorem window_mask_iff (c : Cell) (lo hi : Int) :
    (cellGeTime c lo && cellLeTime c hi) = true ↔
      ∃ v : Int, c = Cell.time (some v) ∧ lo ≤ v ∧ v ≤ hi := by
  cases c with
  | str s => simp [cellGeTime, cellLeTime]
  | time ov =>
    cases ov with
    | none => simp [cellGeTime, cellLeTime]
    | some v => simp [cellGeTime, cellLeTime, and_assoc]

theorem convertGewijzigdOp_cols (parse : String → Option Int) (t : Table) :
    (convertGewijzigdOp parse t).cols = t.cols := rfl

theorem dateFallback_eq (parse : String → Option Int) (lo hi : Int)
    (emptyPre : Table) {allData : Table} (hne : allData.isEmpty = false)
    (hg : "GewijzigdOp" ∈ (process_voting_data allData).cols) :
    dateFallback parse lo hi emptyPre allData =
      filterWindow lo hi (convertGewijzigdOp parse (process_voting_data allData)) := by
  unfold dateFallback
  simp only [hne, Bool.false_eq_true, if_false]
  rw [if_pos hg]

/-! ### The claims -/

/-- C1: the offset-based fetch issues requests with `$top = 250` at
offsets `0, 250, 500, …` increasing by 250, stops as soon as a page has
fewer than 250 records (or none), and returns the concatenation of all
pages fetched; the record count is `250·k + s` for `k` full pages and a
short page of `s` records — in particular 590 for pages of 250, 250
and 90 — and nothing after the short page is requested. -/
theorem C1_offset_fetch_spec (quote : String → String) (endpoint : String)
    (fq : Option String) (fulls : List (List α)) (shortPage : List α)
    (rest : List (PResp α))
    (hf : ∀ p ∈ fulls, p.length = BATCH_SIZE)
    (hs : shortPage.length < BATCH_SIZE) :
    (fetch_paginated_data quote endpoint fq
        (fulls.map PResp.ok ++ PResp.ok shortPage :: rest)).records
      = fulls.flatten ++ shortPage ∧
    (fetch_paginated_data quote endpoint fq
        (fulls.map PResp.ok ++ PResp.ok shortPage :: rest)).reqs
      = (List.range (fulls.length + 1)).map
          (fun i => pageUrl quote endpoint fq (BATCH_SIZE * i)) ∧
    (fetch_paginated_data quote endpoint fq
        (fulls.map PResp.ok ++ PResp.ok shortPage :: rest)).records.length
      = BATCH_SIZE * fulls.length + shortPage.length ∧
    (fetch_paginated_data quote endpoint fq
        (fulls.map PResp.ok ++ PResp.ok shortPage :: rest)).done = true := by
  unfold fetch_paginated_data
  rw [fetch_paginated_go_full_run quote endpoint fq _ fulls hf 0,
    fetch_paginated_go_short hs]
  simp only [Nat.zero_add]
  refine ⟨trivial, ?_, ?_, trivial⟩
  · simp [List.range_succ]
  · rw [List.length_append, flatten_length_const fulls hf]

/-- C2: on a vote table carrying all four essential columns, the
cleaning step keeps exactly the rows whose `Soort` is `"Voor"` or
`"Tegen"`, projects them onto the four columns
`Besluit_Id, ActorFractie, Soort, GewijzigdOp`, and removes exact
duplicate rows; it is a pure total function and an empty table is
returned empty. -/
theorem C2_cleaning_spec (t : Table)
    (h4 : ∀ c ∈ essentialCols, c ∈ t.cols) (hne : t.isEmpty = false) :
    (process_voting_data t).cols = essentialCols ∧
    (∀ r, r ∈ (process_voting_data t).rows ↔
      ∃ r0, r0 ∈ t.rows ∧
        (cellAt t.cols r0 "Soort" = Cell.str "Voor" ∨
         cellAt t.cols r0 "Soort" = Cell.str "Tegen") ∧
        r = projectRow t.cols essentialCols r0) ∧
    (process_voting_data t).rows.Nodup ∧
    (∀ u : Table, u.isEmpty = true → (process_voting_data u).isEmpty = true) := by
  have hS : "Soort" ∈ t.cols := h4 "Soort" (by decide)
  have havall : availableCols t.cols = essentialCols := by
    unfold availableCols
    apply List.filter_eq_self.mpr
    intro c hc
    simpa using h4 c hc
  have hav : availableCols t.cols ≠ [] := by
    rw [havall]
    simp [essentialCols]
  have heq := process_voting_data_eq hne hav
  rw [havall] at heq
  have hfrows : (soortFilter t).rows = t.rows.filter (fun x => keepRow t.cols x) := by
    unfold soortFilter
    rw [if_pos hS]
  have hrows : (process_voting_data t).rows =
      dropDupRows ((t.rows.filter (fun x => keepRow t.cols x)).map
        (projectRow t.cols essentialCols)) := by
    rw [heq, hfrows]
  refine ⟨by rw [heq], ?_, ?_, ?_⟩
  · intro r
    rw [hrows, mem_dropDupRows, List.mem_map]
    constructor
    · rintro ⟨r0, hr0, hpr⟩
      obtain ⟨hmem, hkeep⟩ := List.mem_filter.mp hr0
      refine ⟨r0, hmem, ?_, hpr.symm⟩
      simpa [keepRow, voteKinds] using hkeep
    · rintro ⟨r0, hmem, hvote, hpr⟩
      refine ⟨r0, List.mem_filter.mpr ⟨hmem, ?_⟩, hpr.symm⟩
      rcases hvote with h | h <;> simp [keepRow, voteKinds, h]
  · rw [hrows]
    exact dropDupRows_nodup _
  · intro u hu
    rw [process_voting_data_empty hu]
    exact hu

/-- C6: cleaning never introduces rows — the cleaned table has at most
as many rows as its input. -/
theorem C6_cleaning_shrinks (t : Table) :
    (process_voting_data t).rows.length ≤ t.rows.length := by
  by_cases hemp : t.isEmpty = true
  · rw [process_voting_data_empty hemp]
  · have hne : t.isEmpty = false := by simpa using hemp
    by_cases hav : availableCols t.cols = []
    · rw [process_voting_data_noavail hne hav]
      exact (soortFilter_rows_sublist t).length_le
    · have hrows : (process_voting_data t).rows =
          dropDupRows ((soortFilter t).rows.map
            (projectRow t.cols (availableCols t.cols))) := by
        rw [process_voting_data_eq hne hav]
      rw [hrows]
      calc (dropDupRows ((soortFilter t).rows.map
            (projectRow t.cols (availableCols t.cols)))).length
          ≤ ((soortFilter t).rows.map
            (projectRow t.cols (availableCols t.cols))).length :=
            dropDupRows_length_le _
        _ = (soortFilter t).rows.length := List.length_map _ _
        _ ≤ t.rows.length := (soortFilter_rows_sublist t).length_le

/-- C9: when the input table has no `Soort` column, the cleaning step
filters nothing — every row survives, subject only to projection onto
whichever of the four essential columns are present (absent ones are
silently omitted) and duplicate removal; when none of the four columns
is present either, the table is returned unchanged. -/
theorem C9_no_soort_no_filter (t : Table)
    (hS : "Soort" ∉ t.cols) (hne : t.isEmpty = false) :
    (availableCols t.cols = [] → process_voting_data t = t) ∧
    (availableCols t.cols ≠ [] →
      process_voting_data t =
        ⟨availableCols t.cols,
         dropDupRows (t.rows.map (projectRow t.cols (availableCols t.cols)))⟩) := by
  have hsf : soortFilter t = t := by
    unfold soortFilter
    rw [if_neg hS]
  constructor
  · intro hav
    rw [process_voting_data_noavail hne hav, hsf]
  · intro hav
    rw [process_voting_data_eq hne hav, hsf]

/-- C3: when the date-filtered fetch returns no rows, the fallback
refetches without a filter, cleans, parses the `GewijzigdOp` column
and keeps exactly the records whose timestamp lies in the window
`[2022-11-22T00:00:00Z, 2023-11-21T23:59:59Z]`, both boundaries
inclusive; records whose timestamp falls outside the window on either
side (or does not parse) are excluded. -/
theorem C3_fallback_window (parse : String → Option Int)
    (emptyPre allData : Table) (r : List Cell)
    (hne : allData.isEmpty = false)
    (hg : "GewijzigdOp" ∈ (process_voting_data allData).cols) :
    r ∈ (dateFallback parse preStartDt preEndDt emptyPre allData).rows ↔
      r ∈ (convertGewijzigdOp parse (process_voting_data allData)).rows ∧
      ∃ v : Int, cellAt (process_voting_data allData).cols r "GewijzigdOp"
          = Cell.time (some v) ∧ preStartDt ≤ v ∧ v ≤ preEndDt := by
  rw [dateFallback_eq parse preStartDt preEndDt emptyPre hne hg]
  constructor
  · intro h
    obtain ⟨h1, h2⟩ := List.mem_filter.mp h
    exact ⟨h1, (window_mask_iff _ _ _).mp h2⟩
  · rintro ⟨h1, v, hv, hlo, hhi⟩
    exact List.mem_filter.mpr ⟨h1, (window_mask_iff _ _ _).mpr ⟨v, hv, hlo, hhi⟩⟩

/-- C4: in the cursor-based fetch, when a response carries a full page
of 250 records and no `@odata.nextLink`, the next request is the
offset-based fallback: a URL rebuilt from the same
filter/expand/select/top parameters with `$skip` incremented by 250
over the previous fallback skip. -/
theorem C4_fallback_increments_skip (quote : String → String) (df dt : String)
    {v : List α} (hfull : 250 ≤ v.length) {rest : List (CoResp α)}
    (hrest : rest ≠ []) (url : String) (skip : Nat) :
    (fetch_coauthoring_go quote (coauthParams df dt)
        (CoResp.ok v none :: rest) url skip).reqs[1]?
      = some (fallbackUrl quote (coauthParams df dt) (skip + 250)) ∧
    fallbackUrl quote (coauthParams df dt) (skip + 250)
      = BASE_URL ++ "/Document?" ++ String.intercalate "&"
          ((coauthParams df dt).map (fun kv => kv.1 ++ "=" ++ quote kv.2) ++
            [s!"$skip={skip + 250}"]) := by
  constructor
  · rw [fetch_coauthoring_go_nolink hfull]
    simp only [List.getElem?_cons_succ]
    exact fetch_coauthoring_go_reqs_zero quote (coauthParams df dt) hrest _ _
  · rfl

/-- C7: in both pagination loops, an exception at some page request
terminates the loop at that page with no retry; the function returns
exactly the records accumulated from the pages fetched before the
failure (empty when the first request fails), and the error does not
propagate (the loop still returns normally, `done = true`). -/
theorem C7_error_keeps_accumulated (quote : String → String) (endpoint : String)
    (fq : Option String) (params : List (String × String))
    (fulls : List (List α)) (rest : List (PResp α))
    (pages : List (List β × Option String)) (rest2 : List (CoResp β))
    (url : String) (skip : Nat)
    (hf : ∀ p ∈ fulls, p.length = BATCH_SIZE)
    (hp : ∀ p ∈ pages, p.1.length = 250) :
    ((fetch_paginated_data quote endpoint fq
        (fulls.map PResp.ok ++ PResp.err :: rest)).records = fulls.flatten ∧
     (fetch_paginated_data quote endpoint fq
        (fulls.map PResp.ok ++ PResp.err :: rest)).done = true ∧
     (fetch_paginated_data quote endpoint fq
        (fulls.map PResp.ok ++ PResp.err :: rest)).reqs.length
       = fulls.length + 1) ∧
    ((fetch_coauthoring_go quote params
        (pages.map (fun p => CoResp.ok p.1 p.2) ++ CoResp.err :: rest2)
        url skip).items = (pages.map Prod.fst).flatten ∧
     (fetch_coauthoring_go quote params
        (pages.map (fun p => CoResp.ok p.1 p.2) ++ CoResp.err :: rest2)
        url skip).done = true) := by
  constructor
  · unfold fetch_paginated_data
    rw [fetch_paginated_go_full_run quote endpoint fq _ fulls hf 0,
      fetch_paginated_go_err]
    refine ⟨by simp, rfl, by simp⟩
  · exact fetch_coauthoring_go_err_after quote params rest2 pages hp url skip

/-- C8: the cursor-based fetch follows a server-supplied
`@odata.nextLink` whenever one is present in a full-page response, and
uses the offset-based fallback URL only when none is present. -/
theorem C8_nextlink_followed (quote : String → String)
    (params : List (String × String)) {v : List α} (hfull : 250 ≤ v.length)
    {rest : List (CoResp α)} (hrest : rest ≠ []) (l : String) (url : String)
    (skip : Nat) :
    (fetch_coauthoring_go quote params
        (CoResp.ok v (some l) :: rest) url skip).reqs[1]? = some l ∧
    (fetch_coauthoring_go quote params
        (CoResp.ok v none :: rest) url skip).reqs[1]?
      = some (fallbackUrl quote params (skip + 250)) := by
  constructor
  · rw [fetch_coauthoring_go_link hfull]
    simp only [List.getElem?_cons_succ]
    exact fetch_coauthoring_go_reqs_zero quote params hrest l skip
  · rw [fetch_coauthoring_go_nolink hfull]
    simp only [List.getElem?_cons_succ]
    exact fetch_coauthoring_go_reqs_zero quote params hrest _ _

/-- C10: the fallback `skip` counter is not advanced by pages fetched
through an `@odata.nextLink`; starting from `skip = 0`, after any
number of full nextLink pages followed by a full page without a link,
the first fallback request uses `$skip = 250` — i.e. 250 times the one
fallback step taken so far. -/
theorem C10_skip_stays_at_links (quote : String → String)
    (params : List (String × String)) :
    ∀ pages : List (List α × String), (∀ p ∈ pages, p.1.length = 250) →
    ∀ {w : List α}, w.length = 250 → ∀ {rest : List (CoResp α)}, rest ≠ [] →
    ∀ url : String,
    (fetch_coauthoring_go quote params
        (pages.map (fun p => CoResp.ok p.1 (some p.2)) ++
          CoResp.ok w none :: rest) url 0).reqs[pages.length + 1]?
      = some (fallbackUrl quote params 250) := by
  intro pages
  induction pages with
  | nil =>
    intro _ w hw rest hrest url
    simp only [List.map_nil, List.nil_append, List.length_nil, Nat.zero_add]
    rw [fetch_coauthoring_go_nolink (by omega)]
    simp only [List.getElem?_cons_succ, Nat.zero_add]
    exact fetch_coauthoring_go_reqs_zero quote params hrest _ _
  | cons p ps ih =>
    intro hfull w hw rest hrest url
    have hp : p.1.length = 250 := hfull p (List.mem_cons_self _ _)
    have hf' : ∀ q ∈ ps, q.1.length = 250 :=
      fun q hq => hfull q (List.mem_cons_of_mem _ hq)
    simp only [List.map_cons, List.cons_append, List.length_cons]
    rw [fetch_coauthoring_go_link (by omega)]
    have : ps.length + 1 + 1 = (ps.length + 1) + 1 := rfl
    simp only [List.getElem?_cons_succ]
    exact ih hf' hw hrest p.2

/-! ### Concrete witnesses -/

/-- Witness for C1: three synthetic pages of 250, 250 and 90 records
yield 590 concatenated records, requests at offsets 0, 250, 500, and a
clean stop after the short page. -/
theorem C1_offset_fetch_spec_witness :
    (∀ p ∈ [List.replicate 250 (0 : Nat), List.replicate 250 1],
        p.length = BATCH_SIZE) ∧
    (List.replicate 90 (2 : Nat)).length < BATCH_SIZE ∧
    ((fetch_paginated_data id "Stemming" none
        ([List.replicate 250 (0 : Nat), List.replicate 250 1].map PResp.ok ++
          PResp.ok (List.replicate 90 2) :: [])).records
        = [List.replicate 250 (0 : Nat), List.replicate 250 1].flatten ++
            List.replicate 90 2 ∧
      (fetch_paginated_data id "Stemming" none
        ([List.replicate 250 (0 : Nat), List.replicate 250 1].map PResp.ok ++
          PResp.ok (List.replicate 90 2) :: [])).reqs
        = (List.range ([List.replicate 250 (0 : Nat),
              List.replicate 250 1].length + 1)).map
            (fun i => pageUrl id "Stemming" none (BATCH_SIZE * i)) ∧
      (fetch_paginated_data id "Stemming" none
        ([List.replicate 250 (0 : Nat), List.replicate 250 1].map PResp.ok ++
          PResp.ok (List.replicate 90 2) :: [])).records.length
        = BATCH_SIZE * [List.replicate 250 (0 : Nat),
            List.replicate 250 1].length + (List.replicate 90 (2 : Nat)).length ∧
      (fetch_paginated_data id "Stemming" none
        ([List.replicate 250 (0 : Nat), List.replicate 250 1].map PResp.ok ++
          PResp.ok (List.replicate 90 2) :: [])).done = true) ∧
    (fetch_paginated_data id "Stemming" none
        ([List.replicate 250 (0 : Nat), List.replicate 250 1].map PResp.ok ++
          PResp.ok (List.replicate 90 2) :: [])).records.length = 590 :=
  ⟨by decide, by decide,
    C1_offset_fetch_spec id "Stemming" none
      [List.replicate 250 (0 : Nat), List.replicate 250 1]
      (List.replicate 90 2) [] (by decide) (by decide),
    ((C1_offset_fetch_spec id "Stemming" none
      [List.replicate 250 (0 : Nat), List.replicate 250 1]
      (List.replicate 90 2) [] (by decide) (by decide)).2.2.1).trans (by decide)⟩

/-- Witness for C2: a table with the four essential columns, a
duplicated Voor row and an Onthouding row. -/
theorem C2_cleaning_spec_witness :
    (∀ c ∈ essentialCols, c ∈ (Table.mk essentialCols
        [[Cell.str "b1", Cell.str "F1", Cell.str "Voor", Cell.str "d1"],
         [Cell.str "b1", Cell.str "F1", Cell.str "Voor", Cell.str "d1"],
         [Cell.str "b2", Cell.str "F2", Cell.str "Onthouding", Cell.str "d2"]]).cols) ∧
    (Table.mk essentialCols
        [[Cell.str "b1", Cell.str "F1", Cell.str "Voor", Cell.str "d1"],
         [Cell.str "b1", Cell.str "F1", Cell.str "Voor", Cell.str "d1"],
         [Cell.str "b2", Cell.str "F2", Cell.str "Onthouding", Cell.str "d2"]]).isEmpty
      = false ∧
    ((process_voting_data (Table.mk essentialCols
        [[Cell.str "b1", Cell.str "F1", Cell.str "Voor", Cell.str "d1"],
         [Cell.str "b1", Cell.str "F1", Cell.str "Voor", Cell.str "d1"],
         [Cell.str "b2", Cell.str "F2", Cell.str "Onthouding", Cell.str "d2"]])).cols
      = essentialCols ∧
     (∀ r, r ∈ (process_voting_data (Table.mk essentialCols
        [[Cell.str "b1", Cell.str "F1", Cell.str "Voor", Cell.str "d1"],
         [Cell.str "b1", Cell.str "F1", Cell.str "Voor", Cell.str "d1"],
         [Cell.str "b2", Cell.str "F2", Cell.str "Onthouding", Cell.str "d2"]])).rows ↔
       ∃ r0, r0 ∈ (Table.mk essentialCols
        [[Cell.str "b1", Cell.str "F1", Cell.str "Voor", Cell.str "d1"],
         [Cell.str "b1", Cell.str "F1", Cell.str "Voor", Cell.str "d1"],
         [Cell.str "b2", Cell.str "F2", Cell.str "Onthouding", Cell.str "d2"]]).rows ∧
         (cellAt essentialCols r0 "Soort" = Cell.str "Voor" ∨
          cellAt essentialCols r0 "Soort" = Cell.str "Tegen") ∧
         r = projectRow essentialCols essentialCols r0) ∧
     (process_voting_data (Table.mk essentialCols
        [[Cell.str "b1", Cell.str "F1", Cell.str "Voor", Cell.str "d1"],
         [Cell.str "b1", Cell.str "F1", Cell.str "Voor", Cell.str "d1"],
         [Cell.str "b2", Cell.str "F2", Cell.str "Onthouding", Cell.str "d2"]])).rows.Nodup ∧
     (∀ u : Table, u.isEmpty = true → (process_voting_data u).isEmpty = true)) :=
  ⟨by decide, by decide,
    C2_cleaning_spec (Table.mk essentialCols
        [[Cell.str "b1", Cell.str "F1", Cell.str "Voor", Cell.str "d1"],
         [Cell.str "b1", Cell.str "F1", Cell.str "Voor", Cell.str "d1"],
         [Cell.str "b2", Cell.str "F2", Cell.str "Onthouding", Cell.str "d2"]])
      (by decide) (by decide)⟩

/-- Witness for C3: an unfiltered refetch holding one record inside
the window and one just before its lower boundary. -/
theorem C3_fallback_window_witness :
    (Table.mk essentialCols
        [[Cell.str "b1", Cell.str "F1", Cell.str "Voor", Cell.str "in"],
         [Cell.str "b2", Cell.str "F2", Cell.str "Tegen", Cell.str "early"]]).isEmpty
      = false ∧
    "GewijzigdOp" ∈ (process_voting_data (Table.mk essentialCols
        [[Cell.str "b1", Cell.str "F1", Cell.str "Voor", Cell.str "in"],
         [Cell.str "b2", Cell.str "F2", Cell.str "Tegen", Cell.str "early"]])).cols ∧
    ([Cell.str "b1", Cell.str "F1", Cell.str "Voor",
        Cell.time (some 1685577600)] ∈
      (dateFallback
        (fun s => if s = "in" then some (1685577600 : Int)
          else if s = "early" then some 1669075199 else none)
        preStartDt preEndDt (Table.mk [] [])
        (Table.mk essentialCols
          [[Cell.str "b1", Cell.str "F1", Cell.str "Voor", Cell.str "in"],
           [Cell.str "b2", Cell.str "F2", Cell.str "Tegen", Cell.str "early"]])).rows ↔
      [Cell.str "b1", Cell.str "F1", Cell.str "Voor",
          Cell.time (some 1685577600)] ∈
        (convertGewijzigdOp
          (fun s => if s = "in" then some (1685577600 : Int)
            else if s = "early" then some 1669075199 else none)
          (process_voting_data (Table.mk essentialCols
            [[Cell.str "b1", Cell.str "F1", Cell.str "Voor", Cell.str "in"],
             [Cell.str "b2", Cell.str "F2", Cell.str "Tegen", Cell.str "early"]]))).rows ∧
      ∃ v : Int, cellAt (process_voting_data (Table.mk essentialCols
            [[Cell.str "b1", Cell.str "F1", Cell.str "Voor", Cell.str "in"],
             [Cell.str "b2", Cell.str "F2", Cell.str "Tegen", Cell.str "early"]])).cols
          [Cell.str "b1", Cell.str "F1", Cell.str "Voor",
            Cell.time (some 1685577600)] "GewijzigdOp"
          = Cell.time (some v) ∧ preStartDt ≤ v ∧ v ≤ preEndDt) :=
  ⟨by decide, by decide,
    C3_fallback_window
      (fun s => if s = "in" then some (1685577600 : Int)
        else if s = "early" then some 1669075199 else none)
      (Table.mk [] [])
      (Table.mk essentialCols
        [[Cell.str "b1", Cell.str "F1", Cell.str "Voor", Cell.str "in"],
         [Cell.str "b2", Cell.str "F2", Cell.str "Tegen", Cell.str "early"]])
      [Cell.str "b1", Cell.str "F1", Cell.str "Voor", Cell.time (some 1685577600)]
      (by decide) (by decide)⟩

/-- Witness for C4: a full page with no nextLink at fallback skip 0. -/
theorem C4_fallback_increments_skip_witness :
    250 ≤ (List.replicate 250 (0 : Nat)).length ∧
    ([CoResp.err] : List (CoResp Nat)) ≠ [] ∧
    ((fetch_coauthoring_go id (coauthParams "2022-11-22" "2023-11-21")
        (CoResp.ok (List.replicate 250 (0 : Nat)) none :: [CoResp.err])
        "u" 0).reqs[1]?
      = some (fallbackUrl id (coauthParams "2022-11-22" "2023-11-21") (0 + 250)) ∧
     fallbackUrl id (coauthParams "2022-11-22" "2023-11-21") (0 + 250)
      = BASE_URL ++ "/Document?" ++ String.intercalate "&"
          ((coauthParams "2022-11-22" "2023-11-21").map
            (fun kv => kv.1 ++ "=" ++ id kv.2) ++ [s!"$skip={0 + 250}"])) :=
  ⟨by decide, by decide,
    C4_fallback_increments_skip id "2022-11-22" "2023-11-21"
      (by decide : 250 ≤ (List.replicate 250 (0 : Nat)).length)
      (by decide : ([CoResp.err] : List (CoResp Nat)) ≠ []) "u" 0⟩

/-- Witness for C7: a failure on the very first request of each loop
returns an empty result without propagating the error. -/
theorem C7_error_keeps_accumulated_witness :
    (∀ p ∈ ([] : List (List Nat)), p.length = BATCH_SIZE) ∧
    (∀ p ∈ ([] : List (List Nat × Option String)), p.1.length = 250) ∧
    (((fetch_paginated_data id "Stemming" none
        (([] : List (List Nat)).map PResp.ok ++ PResp.err :: [])).records
        = ([] : List (List Nat)).flatten ∧
      (fetch_paginated_data id "Stemming" none
        (([] : List (List Nat)).map PResp.ok ++ PResp.err :: [])).done = true ∧
      (fetch_paginated_data id "Stemming" none
        (([] : List (List Nat)).map PResp.ok ++ PResp.err :: [])).reqs.length
        = ([] : List (List Nat)).length + 1) ∧
     ((fetch_coauthoring_go id []
        (([] : List (List Nat × Option String)).map
          (fun p => CoResp.ok p.1 p.2) ++ CoResp.err :: []) "u" 0).items
        = (([] : List (List Nat × Option String)).map Prod.fst).flatten ∧
      (fetch_coauthoring_go id []
        (([] : List (List Nat × Option String)).map
          (fun p => CoResp.ok p.1 p.2) ++ CoResp.err :: []) "u" 0).done = true)) :=
  ⟨by decide, by decide,
    C7_error_keeps_accumulated id "Stemming" none [] [] [] [] [] "u" 0
      (by decide) (by decide)⟩

/-- Witness for C8: a full page with a nextLink is followed; without
one, the fallback URL with `$skip = 250` is requested. -/
theorem C8_nextlink_followed_witness :
    250 ≤ (List.replicate 250 (0 : Nat)).length ∧
    ([CoResp.err] : List (CoResp Nat)) ≠ [] ∧
    ((fetch_coauthoring_go id []
        (CoResp.ok (List.replicate 250 (0 : Nat)) (some "nextL") ::
          [CoResp.err]) "u" 0).reqs[1]? = some "nextL" ∧
     (fetch_coauthoring_go id []
        (CoResp.ok (List.replicate 250 (0 : Nat)) none ::
          [CoResp.err]) "u" 0).reqs[1]?
      = some (fallbackUrl id [] (0 + 250))) :=
  ⟨by decide, by decide,
    C8_nextlink_followed id []
      (by decide : 250 ≤ (List.replicate 250 (0 : Nat)).length)
      (by decide : ([CoResp.err] : List (CoResp Nat)) ≠ []) "nextL" "u" 0⟩

/-- Witness for C9: a table with a `Besluit_Id` column, an extra
column, no `Soort` column, and a duplicated row. -/
theorem C9_no_soort_no_filter_witness :
    "Soort" ∉ (Table.mk ["Besluit_Id", "Foo"]
        [[Cell.str "b1", Cell.str "x"],
         [Cell.str "b1", Cell.str "x"],
         [Cell.str "b2", Cell.str "y"]]).cols ∧
    (Table.mk ["Besluit_Id", "Foo"]
        [[Cell.str "b1", Cell.str "x"],
         [Cell.str "b1", Cell.str "x"],
         [Cell.str "b2", Cell.str "y"]]).isEmpty = false ∧
    ((availableCols ["Besluit_Id", "Foo"] = [] →
      process_voting_data (Table.mk ["Besluit_Id", "Foo"]
        [[Cell.str "b1", Cell.str "x"],
         [Cell.str "b1", Cell.str "x"],
         [Cell.str "b2", Cell.str "y"]])
        = Table.mk ["Besluit_Id", "Foo"]
        [[Cell.str "b1", Cell.str "x"],
         [Cell.str "b1", Cell.str "x"],
         [Cell.str "b2", Cell.str "y"]]) ∧
     (availableCols ["Besluit_Id", "Foo"] ≠ [] →
      process_voting_data (Table.mk ["Besluit_Id", "Foo"]
        [[Cell.str "b1", Cell.str "x"],
         [Cell.str "b1", Cell.str "x"],
         [Cell.str "b2", Cell.str "y"]])
        = Table.mk (availableCols ["Besluit_Id", "Foo"])
            (dropDupRows ([[Cell.str "b1", Cell.str "x"],
              [Cell.str "b1", Cell.str "x"],
              [Cell.str "b2", Cell.str "y"]].map
              (projectRow ["Besluit_Id", "Foo"]
                (availableCols ["Besluit_Id", "Foo"])))))) :=
  ⟨by decide, by decide,
    C9_no_soort_no_filter (Table.mk ["Besluit_Id", "Foo"]
        [[Cell.str "b1", Cell.str "x"],
         [Cell.str "b1", Cell.str "x"],
         [Cell.str "b2", Cell.str "y"]]) (by decide) (by decide)⟩

/-- Witness for C10: one full nextLink page, then a full page with no
link; the fallback request after the link page still uses
`$skip = 250`. -/
theorem C10_skip_stays_at_links_witness :
    (∀ p ∈ [(List.replicate 250 (0 : Nat), "L1")], p.1.length = 250) ∧
    (List.replicate 250 (1 : Nat)).length = 250 ∧
    ([CoResp.err] : List (CoResp Nat)) ≠ [] ∧
    (fetch_coauthoring_go id []
        ([(List.replicate 250 (0 : Nat), "L1")].map
          (fun p => CoResp.ok p.1 (some p.2)) ++
          CoResp.ok (List.replicate 250 1) none :: [CoResp.err])
        "u0" 0).reqs[2]? = some (fallbackUrl id [] 250) :=
  ⟨by decide, by decide, by decide,
    C10_skip_stays_at_links id [] [(List.replicate 250 (0 : Nat), "L1")]
      (by decide)
      (by decide : (List.replicate 250 (1 : Nat)).length = 250)
      (by decide : ([CoResp.err] : List (CoResp Nat)) ≠ []) "u0"⟩

end TK
